import Mathlib

/-!
Verification of the SCPD (UPnP Service Control Protocol Description) model
from `src/scpd.rs`: the typed document tree, name-prefix normalization,
argument direction partitioning, and the data-type mapping.

Shallow embedding conventions:
* Rust `String`/`&str` become Lean `String` (a wrapper around `List Char`).
* `Value<T>` (the XML element wrapper from `shared.rs`, used only through its
  `.value` field) is a one-field structure.
* Rust `Option<T>` becomes `Option`.
* The `unimplemented!` panic in `data_type_str` is modelled as
  `Except.error (ScpdError.unsupportedType _)`: the function is fallible and
  the failure carries the offending tag.
* `str::trim_start_matches(pat)` repeatedly removes every leading occurrence
  of `pat`; it is modelled by fuelled structural recursion (fuel = length of
  the string, which bounds the number of removals).
-/

/-- Lean's builtin `Bool` under an unambiguous name: the source defines its
own two-valued `Bool` enum (see `Scpd.Bool` below), which inside the `Scpd`
namespace would shadow the builtin in result types of predicates. -/
abbrev CoreBool := Bool

/-- `Value<T>` from `shared.rs`, used in the source only as a plain wrapper
holding a `value` field (an XML-nesting helper). Modelled from the spec:
the wrapped fields are treated as the plain sequences they carry. -/
structure Scpd.Value (α : Type) where
  value : α
deriving DecidableEq

/-- The two-valued wire vocabulary `Bool { Yes, No }` from `scpd.rs`. -/
inductive Scpd.Bool where
  | Yes
  | No
deriving DecidableEq

/-- `Bool::yes`, the serde default function for `send_events_attribute`. -/
def Scpd.Bool.yes : Scpd.Bool := .Yes

/-- `Bool::no`, the serde default function for `multicast`. -/
def Scpd.Bool.no : Scpd.Bool := .No

/-- `Direction { In, Out }` from `scpd.rs`. -/
inductive Scpd.Direction where
  | In
  | Out
deriving DecidableEq

/-- `Direction::is_in`. -/
def Scpd.Direction.is_in : Scpd.Direction → CoreBool
  | .In => true
  | .Out => false

/-- `Direction::is_out`, defined in the source as `!self.is_in()`. -/
def Scpd.Direction.is_out (d : Scpd.Direction) : CoreBool := !d.is_in

/-- The closed `DataType` enum of UPnP primitive type tags from `scpd.rs`. -/
inductive Scpd.DataType where
  | ui1
  | ui2
  | ui4
  | ui8
  | i1
  | i2
  | i4
  | int
  | r4
  | r8
  | number
  | float
  | fixed14_4
  | char
  | string
  | date
  | dateTime
  | dateTimeTz
  | time
  | timeTz
  | boolean
  | binBase64
  | binHex
  | uri
deriving DecidableEq

/-- Fuelled core of `str::trim_start_matches`: while the pattern `p` is a
non-empty leading match of `s`, drop it and continue. Each removal shortens
the string by at least one character, so fuel `s.length` is enough. -/
def Scpd.trimStartMatchesFuel (p : List Char) : Nat → List Char → List Char
  | 0, s => s
  | fuel + 1, s =>
    if p.isPrefixOf s && !p.isEmpty then
      Scpd.trimStartMatchesFuel p fuel (s.drop p.length)
    else
      s

/-- The literal pattern `"A_ARG_TYPE_"` used by both stripping sites. -/
def Scpd.aArgTypePat : List Char := "A_ARG_TYPE_".data

/-- `s.trim_start_matches("A_ARG_TYPE_")` on the underlying character list. -/
def Scpd.trimAArgType (s : List Char) : List Char :=
  Scpd.trimStartMatchesFuel Scpd.aArgTypePat s.length s

/-- `s.trim_start_matches("A_ARG_TYPE_")` as a `String → String` map; this is
the normalization applied by `StateVariable::name` and
`Argument::related_state_variable`. -/
def Scpd.stripAArgType (s : String) : String :=
  String.mk (Scpd.trimAArgType s.data)

/-- `AllowedValueRange` from `scpd.rs` (`i32` fields; their values are never
arithmetically combined in the source, so they are carried as `Int`). -/
structure Scpd.AllowedValueRange where
  minimum : Int
  maximum : Int
  step : Int
deriving DecidableEq

/-- `StateVariable` from `scpd.rs`, fields as deserialized. -/
structure Scpd.StateVariable where
  name : String
  send_events_attribute : Scpd.Bool
  multicast : Scpd.Bool
  data_type : Scpd.DataType
  default_value : Option String
  allowed_value_list : Option (Scpd.Value (List String))
  allowed_value_range : Option Scpd.AllowedValueRange
  optional : Option Unit
deriving DecidableEq

/-- `StateVariable::name()`: the stored name with the `A_ARG_TYPE_` prefix
stripped on read. -/
def Scpd.StateVariable.nameStr (sv : Scpd.StateVariable) : String :=
  Scpd.stripAArgType sv.name

/-- `StateVariable::optional()`: `self.optional.is_some()`. -/
def Scpd.StateVariable.optionalB (sv : Scpd.StateVariable) : CoreBool :=
  sv.optional.isSome

/-- `StateVariable::allowed_values()`: the wrapped list when the
`allowed_value_list` element is present. -/
def Scpd.StateVariable.allowed_values (sv : Scpd.StateVariable) :
    Option (List String) :=
  match sv.allowed_value_list with
  | some allowedValues => some allowedValues.value
  | none => none

/-- Failure outcome of the type mapping: the source's `unimplemented!` panic
for a `DataType` with no defined target mapping. -/
inductive Scpd.ScpdError where
  | unsupportedType (dt : Scpd.DataType)
deriving DecidableEq

/-- `StateVariable::data_type_str`: an `allowed_value_list` (of any length)
maps to the variable's own stripped name; otherwise the primitive tag is
dispatched through the fixed table, and the tags with no arm fail (the
source's `unimplemented!`, modelled as `Except.error`). -/
def Scpd.StateVariable.data_type_str (sv : Scpd.StateVariable) :
    Except Scpd.ScpdError String :=
  if (sv.allowed_values).isSome then
    Except.ok sv.nameStr
  else
    match sv.data_type with
    | .ui1 => .ok "u8"
    | .ui2 => .ok "u16"
    | .ui4 => .ok "u32"
    | .ui8 => .ok "u64"
    | .i1 => .ok "i8"
    | .i2 => .ok "i16"
    | .i4 => .ok "i32"
    | .int => .ok "i64"
    | .char => .ok "char"
    | .string => .ok "String"
    | .boolean => .ok "upnp::datatypes::Bool"
    | .uri => .ok "hyper::Uri"
    | dt => .error (.unsupportedType dt)

/-- `StateVariable::data_type_str_input`: delegates to `data_type_str`. -/
def Scpd.StateVariable.data_type_str_input (sv : Scpd.StateVariable) :
    Except Scpd.ScpdError String :=
  sv.data_type_str

/-- `StateVariable::data_type_str_output`: delegates to `data_type_str`. -/
def Scpd.StateVariable.data_type_str_output (sv : Scpd.StateVariable) :
    Except Scpd.ScpdError String :=
  sv.data_type_str

/-- The set of `DataType` tags with no arm in `data_type_str`. -/
def Scpd.DataType.unsupported : Scpd.DataType → CoreBool
  | .r4 | .r8 | .number | .float | .fixed14_4 | .date | .dateTime
  | .dateTimeTz | .time | .timeTz | .binBase64 | .binHex => true
  | _ => false

/-- `Argument` from `scpd.rs`. -/
structure Scpd.Argument where
  name : String
  direction : Scpd.Direction
  related_state_variable : String
deriving DecidableEq

/-- `Argument::related_state_variable()`: the stored back-reference with the
`A_ARG_TYPE_` prefix stripped on read. -/
def Scpd.Argument.relatedStateVariableStr (a : Scpd.Argument) : String :=
  Scpd.stripAArgType a.related_state_variable

/-- `Action` from `scpd.rs`. -/
structure Scpd.Action where
  name : String
  argument_list : Scpd.Value (List Scpd.Argument)
deriving DecidableEq

/-- `Action::arguments()`. -/
def Scpd.Action.arguments (a : Scpd.Action) : List Scpd.Argument :=
  a.argument_list.value

/-- `Action::input_arguments()`: the argument sequence filtered by
`direction.is_in()` (a lazy iterator in the source; its elements in order). -/
def Scpd.Action.input_arguments (a : Scpd.Action) : List Scpd.Argument :=
  a.argument_list.value.filter (fun arg => arg.direction.is_in)

/-- `Action::output_arguments()`: the argument sequence filtered by
`direction.is_out()`. -/
def Scpd.Action.output_arguments (a : Scpd.Action) : List Scpd.Argument :=
  a.argument_list.value.filter (fun arg => arg.direction.is_out)

/-- `Action::destructure`: `(self.name, self.argument_list.value)`. In the
source this consumes `self` (it takes the receiver by value); the embedding
records the returned pair. -/
def Scpd.Action.destructure (a : Scpd.Action) : String × List Scpd.Argument :=
  (a.name, a.argument_list.value)

/-- `SCPD` from `scpd.rs`. -/
structure Scpd.SCPD where
  urn : String
  service_state_table : Scpd.Value (List Scpd.StateVariable)
  action_list : Scpd.Value (List Scpd.Action)
deriving DecidableEq

/-- `SCPD::state_variables()`. -/
def Scpd.SCPD.state_variables (s : Scpd.SCPD) : List Scpd.StateVariable :=
  s.service_state_table.value

/-- `SCPD::actions()`. -/
def Scpd.SCPD.actions (s : Scpd.SCPD) : List Scpd.Action :=
  s.action_list.value

/-- `SCPD::destructure`: the `(urn, state_variables, actions)` triple. In the
source this consumes `self` (receiver by value); the embedding records the
returned triple. -/
def Scpd.SCPD.destructure (s : Scpd.SCPD) :
    String × List Scpd.StateVariable × List Scpd.Action :=
  (s.urn, s.service_state_table.value, s.action_list.value)

/-- Deserialization model for one `StateVariable` element, following the
serde attributes in `scpd.rs`: a field declared
`#[serde(default = "Bool::yes")]` (resp. `"Bool::no"`) receives the value of
that default function when the element is absent (absence modelled as
`none`); the `optional` field has type `Option<()>`, so a present marker
element of any textual content deserializes to `some ()` and an absent one
to `none`. -/
def Scpd.mkStateVariable (name : String) (sendEvents : Option Scpd.Bool)
    (mcast : Option Scpd.Bool) (dt : Scpd.DataType)
    (defaultValue : Option String)
    (allowedValueList : Option (Scpd.Value (List String)))
    (allowedValueRange : Option Scpd.AllowedValueRange)
    (optionalMarker : Option String) : Scpd.StateVariable :=
  { name := name
    send_events_attribute := sendEvents.getD Scpd.Bool.yes
    multicast := mcast.getD Scpd.Bool.no
    data_type := dt
    default_value := defaultValue
    allowed_value_list := allowedValueList
    allowed_value_range := allowedValueRange
    optional := optionalMarker.map (fun _ => ()) }

/-! ## Helper lemmas about the prefix stripper -/

/-- If the pattern is not a leading match, any amount of fuel leaves the
string unchanged. -/
theorem Scpd.trimStartMatchesFuel_of_not_isPrefixOf {p s : List Char}
    (h : p.isPrefixOf s = false) (fuel : Nat) :
    Scpd.trimStartMatchesFuel p fuel s = s := by
  cases fuel with
  | zero => rfl
  | succ n =>
    simp [Scpd.trimStartMatchesFuel, h]

/-- With enough fuel, the result of the stripper no longer starts with the
(non-empty) pattern. -/
theorem Scpd.not_isPrefixOf_trimStartMatchesFuel {p : List Char}
    (hp : p ≠ []) :
    ∀ (fuel : Nat) (s : List Char), s.length ≤ fuel →
      p.isPrefixOf (Scpd.trimStartMatchesFuel p fuel s) = false := by
  intro fuel
  induction fuel with
  | zero =>
    intro s hs
    have hsnil : s = [] := List.length_eq_zero.mp (Nat.le_zero.mp hs)
    subst hsnil
    simp only [Scpd.trimStartMatchesFuel]
    cases hpre : p.isPrefixOf ([] : List Char) with
    | false => rfl
    | true =>
      exact absurd (List.prefix_nil.mp (List.isPrefixOf_iff_prefix.mp hpre)) hp
  | succ n ih =>
    intro s hs
    by_cases hpre : p.isPrefixOf s = true
    · have hplen : 1 ≤ p.length := by
        cases p with
        | nil => exact absurd rfl hp
        | cons c cs => simp
      have hemp : p.isEmpty = false := by
        cases p with
        | nil => exact absurd rfl hp
        | cons c cs => rfl
      simp only [Scpd.trimStartMatchesFuel, hpre, hemp, Bool.not_false,
        Bool.and_self, if_true]
      apply ih
      have := List.length_drop p.length s
      omega
    · have hpre' : p.isPrefixOf s = false := by
        cases h : p.isPrefixOf s with
        | false => rfl
        | true => exact absurd h hpre
      rw [Scpd.trimStartMatchesFuel_of_not_isPrefixOf hpre' (n + 1)]
      exact hpre'

/-- The `A_ARG_TYPE_` pattern is non-empty. -/
theorem Scpd.aArgTypePat_ne_nil : Scpd.aArgTypePat ≠ [] := by
  decide

/-- Stripping leaves a string that the pattern no longer prefixes. -/
theorem Scpd.not_isPrefixOf_trimAArgType (s : List Char) :
    Scpd.aArgTypePat.isPrefixOf (Scpd.trimAArgType s) = false :=
  Scpd.not_isPrefixOf_trimStartMatchesFuel Scpd.aArgTypePat_ne_nil s.length s
    (Nat.le_refl _)

/-- Stripping a string the pattern does not prefix is the identity. -/
theorem Scpd.stripAArgType_of_not_isPrefixOf {s : String}
    (h : Scpd.aArgTypePat.isPrefixOf s.data = false) :
    Scpd.stripAArgType s = s := by
  unfold Scpd.stripAArgType Scpd.trimAArgType
  rw [Scpd.trimStartMatchesFuel_of_not_isPrefixOf h]

/-- The stripper is idempotent. -/
theorem Scpd.stripAArgType_idem (s : String) :
    Scpd.stripAArgType (Scpd.stripAArgType s) = Scpd.stripAArgType s := by
  apply Scpd.stripAArgType_of_not_isPrefixOf
  show Scpd.aArgTypePat.isPrefixOf (Scpd.trimAArgType s.data) = false
  exact Scpd.not_isPrefixOf_trimAArgType s.data

/-! ## Claim theorems -/

/-- C1: for every StateVariable whose `allowed_value_list` is present and
non-empty, `data_type_str` returns the variable's own prefix-stripped name,
regardless of the value of its `data_type` tag. -/
theorem Scpd.C1_enum_list_precedence (sv : Scpd.StateVariable)
    (l : List String) (h : sv.allowed_value_list = some ⟨l⟩) (hne : l ≠ []) :
    sv.data_type_str = Except.ok (Scpd.stripAArgType sv.name) := by
  simp [Scpd.StateVariable.data_type_str, Scpd.StateVariable.allowed_values, h,
    Scpd.StateVariable.nameStr]

/-- C1 witness: a variable named `A_ARG_TYPE_Mode` with `data_type = string`
and allowed values `["A", "B"]` maps to the stripped name. -/
theorem Scpd.C1_witness :
    (Scpd.mkStateVariable "A_ARG_TYPE_Mode" none none Scpd.DataType.string
        none (some ⟨["A", "B"]⟩) none none).data_type_str =
      Except.ok (Scpd.stripAArgType "A_ARG_TYPE_Mode") :=
  Scpd.C1_enum_list_precedence _ ["A", "B"] rfl (by simp)

/-- C2: for every StateVariable without an `allowed_value_list` whose
`data_type` is in the unsupported set, the type mapping fails with the
unsupported-type error (the source's `unimplemented!`), not a default. -/
theorem Scpd.C2_unsupported_fails (sv : Scpd.StateVariable)
    (h : sv.allowed_value_list = none)
    (hu : sv.data_type.unsupported = true) :
    sv.data_type_str =
      Except.error (Scpd.ScpdError.unsupportedType sv.data_type) := by
  have hav : sv.allowed_values = none := by
    simp [Scpd.StateVariable.allowed_values, h]
  cases hdt : sv.data_type <;>
    simp_all [Scpd.StateVariable.data_type_str, Scpd.DataType.unsupported]

/-- C2 witness: a variable with `data_type = r4` and no allowed-value list
fails with the unsupported-type error. -/
theorem Scpd.C2_witness :
    (Scpd.mkStateVariable "X" none none Scpd.DataType.r4 none none none
        none).data_type_str =
      Except.error (Scpd.ScpdError.unsupportedType Scpd.DataType.r4) :=
  Scpd.C2_unsupported_fails _ rfl rfl

/-- C3: the prefix stripping used by both `StateVariable::name` and
`Argument::related_state_variable` is idempotent, removes a literal leading
`A_ARG_TYPE_` (`strip "A_ARG_TYPE_Foo" = "Foo"`), and is the identity on a
string the prefix does not begin. -/
theorem Scpd.C3_strip_props :
    (∀ sv : Scpd.StateVariable, sv.nameStr = Scpd.stripAArgType sv.name) ∧
    (∀ a : Scpd.Argument,
      a.relatedStateVariableStr =
        Scpd.stripAArgType a.related_state_variable) ∧
    (∀ s : String,
      Scpd.stripAArgType (Scpd.stripAArgType s) = Scpd.stripAArgType s) ∧
    Scpd.stripAArgType "A_ARG_TYPE_Foo" = "Foo" ∧
    (∀ s : String, Scpd.aArgTypePat.isPrefixOf s.data = false →
      Scpd.stripAArgType s = s) := by
  refine ⟨fun _ => rfl, fun _ => rfl, Scpd.stripAArgType_idem, ?_,
    fun s h => Scpd.stripAArgType_of_not_isPrefixOf h⟩
  decide

/-- C3 witness: `"Foo"` does not begin with the prefix and is left alone. -/
theorem Scpd.C3_witness : Scpd.stripAArgType "Foo" = "Foo" :=
  Scpd.C3_strip_props.2.2.2.2 "Foo" (by decide)

/-- C4: for every StateVariable without an `allowed_value_list` whose
`data_type` is in the supported set, `data_type_str` returns exactly the
fixed target type of the table, and the result is identical across repeated
calls on equal inputs. -/
theorem Scpd.C4_table_fixed (sv : Scpd.StateVariable)
    (h : sv.allowed_value_list = none) :
    ((sv.data_type = .ui1 → sv.data_type_str = Except.ok "u8") ∧
     (sv.data_type = .ui2 → sv.data_type_str = Except.ok "u16") ∧
     (sv.data_type = .ui4 → sv.data_type_str = Except.ok "u32") ∧
     (sv.data_type = .ui8 → sv.data_type_str = Except.ok "u64") ∧
     (sv.data_type = .i1 → sv.data_type_str = Except.ok "i8") ∧
     (sv.data_type = .i2 → sv.data_type_str = Except.ok "i16") ∧
     (sv.data_type = .i4 → sv.data_type_str = Except.ok "i32") ∧
     (sv.data_type = .int → sv.data_type_str = Except.ok "i64") ∧
     (sv.data_type = .char → sv.data_type_str = Except.ok "char") ∧
     (sv.data_type = .string → sv.data_type_str = Except.ok "String") ∧
     (sv.data_type = .boolean →
       sv.data_type_str = Except.ok "upnp::datatypes::Bool") ∧
     (sv.data_type = .uri → sv.data_type_str = Except.ok "hyper::Uri")) ∧
    (∀ sv2 : Scpd.StateVariable, sv = sv2 →
      sv.data_type_str = sv2.data_type_str) := by
  have hav : sv.allowed_values = none := by
    simp [Scpd.StateVariable.allowed_values, h]
  refine ⟨⟨fun hdt => ?_, fun hdt => ?_, fun hdt => ?_, fun hdt => ?_,
    fun hdt => ?_, fun hdt => ?_, fun hdt => ?_, fun hdt => ?_, fun hdt => ?_,
    fun hdt => ?_, fun hdt => ?_, fun hdt => ?_⟩,
    fun sv2 he => by rw [he]⟩ <;>
  simp [Scpd.StateVariable.data_type_str, hav, hdt]

/-- C4 witness: a variable with `data_type = ui2` maps to `"u16"`. -/
theorem Scpd.C4_witness :
    (Scpd.mkStateVariable "Volume" none none Scpd.DataType.ui2 none none none
        none).data_type_str = Except.ok "u16" :=
  (Scpd.C4_table_fixed _ rfl).1.2.1 rfl

/-- C5: for every Action, `input_arguments` and `output_arguments` exactly
partition the argument sequence (`is_out` is the negation of `is_in`, the
two lengths sum to the whole, and there is no overlap), and each direction
keeps the declared document order (each is a sublist of the sequence). -/
theorem Scpd.C5_partition (a : Scpd.Action) :
    a.arguments.partition (fun arg => arg.direction.is_in) =
      (a.input_arguments, a.output_arguments) ∧
    (∀ d : Scpd.Direction, d.is_out = !d.is_in) ∧
    a.input_arguments.length + a.output_arguments.length =
      a.arguments.length ∧
    a.input_arguments.Sublist a.arguments ∧
    a.output_arguments.Sublist a.arguments := by
  refine ⟨?_, fun d => rfl, ?_, List.filter_sublist _, List.filter_sublist _⟩
  · exact (List.partition_eq_filter_filter _ _).trans rfl
  · exact (List.length_eq_length_filter_add
      (l := a.argument_list.value) (fun arg => arg.direction.is_in)).symm

/-- C6: `SCPD::destructure` returns exactly the `(urn, state_variables,
actions)` triple and `Action::destructure` the `(name, arguments)` pair, in
stored document order; in the source both take the receiver by value, so the
original is consumed (a Rust move, outside the functional content). -/
theorem Scpd.C6_destructure (s : Scpd.SCPD) (a : Scpd.Action) :
    s.destructure = (s.urn, s.state_variables, s.actions) ∧
    a.destructure = (a.name, a.arguments) :=
  ⟨rfl, rfl⟩

/-- C7: a StateVariable deserialized with the `send_events_attribute` and
`multicast` elements absent gets `Yes` and `No` respectively. -/
theorem Scpd.C7_defaults (name : String) (dt : Scpd.DataType)
    (dv : Option String) (avl : Option (Scpd.Value (List String)))
    (avr : Option Scpd.AllowedValueRange) (om : Option String) :
    (Scpd.mkStateVariable name none none dt dv avl avr
        om).send_events_attribute = Scpd.Bool.Yes ∧
    (Scpd.mkStateVariable name none none dt dv avl avr om).multicast =
      Scpd.Bool.No :=
  ⟨rfl, rfl⟩

/-- C8: `optional()` is true exactly when the presence-marker element
appeared, independently of any content the marker carries. -/
theorem Scpd.C8_optional_marker (name : String) (se mc : Option Scpd.Bool)
    (dt : Scpd.DataType) (dv : Option String)
    (avl : Option (Scpd.Value (List String)))
    (avr : Option Scpd.AllowedValueRange) (om : Option String) :
    ((Scpd.mkStateVariable name se mc dt dv avl avr om).optionalB =
      om.isSome) ∧
    (∀ content : String,
      (Scpd.mkStateVariable name se mc dt dv avl avr
          (some content)).optionalB = true) := by
  constructor
  · cases om <;> rfl
  · intro content
    rfl

/-- C9: the type mapping for input use equals the type mapping for output
use on every StateVariable (both delegate to `data_type_str`). -/
theorem Scpd.C9_input_output_equal (sv : Scpd.StateVariable) :
    sv.data_type_str_input = sv.data_type_str_output :=
  rfl

/-- C10: a StateVariable whose `allowed_value_list` is present but empty
still maps to its own prefix-stripped name: presence of the list, not
non-emptiness, triggers the enum-precedence rule. -/
theorem Scpd.C10_empty_enum_list (sv : Scpd.StateVariable)
    (h : sv.allowed_value_list = some ⟨[]⟩) :
    sv.data_type_str = Except.ok (Scpd.stripAArgType sv.name) := by
  simp [Scpd.StateVariable.data_type_str, Scpd.StateVariable.allowed_values, h,
    Scpd.StateVariable.nameStr]

/-- C10 witness: an empty enumeration on a `data_type = i4` variable still
maps to the stripped name. -/
theorem Scpd.C10_witness :
    (Scpd.mkStateVariable "A_ARG_TYPE_Preset" none none Scpd.DataType.i4 none
        (some ⟨[]⟩) none none).data_type_str =
      Except.ok (Scpd.stripAArgType "A_ARG_TYPE_Preset") :=
  Scpd.C10_empty_enum_list _ rfl
